import Mathlib

/-!
Shallow embedding of `tasks/base/collector/connectEu.go` from
newrelic-diagnostics-cli: the `BaseCollectorConnectEU` diagnostic task.

The task decides, from an upstream result store, whether to probe the EU
collector endpoint, and classifies the probe's outcome into a severity-tagged
`Result`.  Go errors are modelled as `Option String` (the `Error()` text),
the HTTP getter as a function from the request wrapper to
`Except String Response`, and the response body stream as the outcome of
`ioutil.ReadAll` (`Except String String`).
-/

namespace ConnectEU

/-- Severity enumeration of `tasks.Status` (engine-owned; the spec lists
`None < Success < Warning < Failure`).  Only the four values this unit uses
are modelled. -/
inductive Status where
  | None
  | Success
  | Warning
  | Failure
  deriving DecidableEq, Repr

/-- The dynamic payload carried by an upstream `tasks.Result` (`interface{}`
in Go).  The type assertion `.([]string)` succeeds exactly on the
`regions` constructor; a `nil` payload (absent key) and any other type both
fail it. -/
inductive Payload where
  | nil
  | regions (rs : List String)
  | other
  deriving DecidableEq, Repr

/-- Go's `payload.([]string)` checked type assertion: `some rs` iff the
payload holds a string slice. -/
def Payload.asStringSlice : Payload → Option (List String)
  | .regions rs => some rs
  | _ => none

/-- `tasks.Result` as used by this task: status, summary, remediation URL and
dynamic payload.  The Go zero value `tasks.Result{}` is `Result.zero`. -/
structure Result where
  Status : Status
  Summary : String
  URL : String
  Payload : Payload
  deriving DecidableEq, Repr

/-- Go zero value `tasks.Result{}` (status `None`, empty strings, nil
payload). -/
def Result.zero : Result := ⟨Status.None, "", "", Payload.nil⟩

/-- `httpHelper.RequestWrapper` (only the fields this task sets). -/
structure RequestWrapper where
  Method : String
  URL : String
  TimeoutSeconds : Nat
  deriving DecidableEq, Repr

/-- An HTTP response: status code plus the outcome of reading its body
stream to the end (`ioutil.ReadAll`), which either errors or yields the body
text. -/
structure Response where
  StatusCode : Int
  Body : Except String String

/-- The injectable probe `requestFunc`: either a transport-level error or a
response. -/
abbrev RequestFunc : Type := RequestWrapper → Except String Response

/-- `strconv.Itoa` on the status code. -/
def itoa (n : Int) : String := toString n

/-- `tasks.StringInSlice`.  Modelled from the spec: membership of a string in
the detected-region list ("the target region code is not a member of it");
the helper itself lives in the `tasks` package, outside `src/`. -/
def stringInSlice (s : String) (slice : List String) : Bool :=
  slice.contains s

/-- The execution-options argument `tasks.Options`.  Modelled from the spec:
"an execution-options object exposing at least `was this exact task forced to
run`"; the `tasks` package is outside `src/`.  `Execute` receives it but, as
the source shows, never reads it. -/
structure Options where
  isForcedTask : String → Bool

/-- The ambient global `config.Flags`.  Modelled from the spec: the
forced-task check is "read from process-wide configuration"; the `config`
package is outside `src/`.  `Execute` calls `config.Flags.IsForcedTask`. -/
structure ConfigFlags where
  isForcedTask : String → Bool

/-- `p.Identifier().String()` for this task: the literal returned by
`IdentifierFromString("Base/Collector/ConnectEU")` rendered back to a
string. -/
def identifierString : String := "Base/Collector/ConnectEU"

/-- The upstream result store `map[string]tasks.Result`: association list;
a missing key reads as the Go zero value. -/
abbrev Upstream : Type := List (String × Result)

/-- Go map read `m[k]` (missing key yields the zero value). -/
def upstreamGet (u : Upstream) (k : String) : Result :=
  (u.lookup k).getD Result.zero

/-- `prepareEarlyResult`: the Region Gate.  Returns the `None`-status skip
result when the upstream RegionDetect payload is a non-empty string slice
not containing `"eu01"`; otherwise the zero result. -/
def prepareEarlyResult (upstream : Upstream) : Result :=
  match (upstreamGet upstream "Base/Config/RegionDetect").Payload.asStringSlice with
  | some regions =>
      if !(stringInSlice "eu01" regions) && regions.length > 0 then
        { Result.zero with
            Status := Status.None
            Summary := "EU Region not detected, skipping EU collector connect check" }
      else Result.zero
  | none => Result.zero

/-- `prepareCollectorErrorResult`: transport-error classification.  A nil
error returns the zero result; otherwise a `Failure` with the error text
appended and the remediation URL set. -/
def prepareCollectorErrorResult (e : Option String) : Result :=
  match e with
  | none => Result.zero
  | some msg =>
      { Result.zero with
          Status := Status.Failure
          Summary :=
            "There was an error connecting to collector.newrelic.com (EU Region)"
              ++ "\nPlease check network and proxy settings and try again or see -help for more options."
              ++ "\nError = " ++ msg
          URL := "https://docs.newrelic.com/docs/apm/new-relic-apm/getting-started/networks" }

/-- `prepareResponseErrorResult`: body-read-error classification.  A nil
error returns the zero result; otherwise a `Warning` carrying the status
code and the error text, with the remediation URL set. -/
def prepareResponseErrorResult (e : Option String) (statusCode : String) : Result :=
  match e with
  | none => Result.zero
  | some msg =>
      { Result.zero with
          Status := Status.Warning
          Summary :=
            "Status = " ++ statusCode
              ++ ". When connecting to the EU Region collector, there was an issue reading the body. "
              ++ "\nPlease check network and proxy settings and try again or see -help for more options."
              ++ "Error = " ++ msg
          URL := "https://docs.newrelic.com/docs/apm/new-relic-apm/getting-started/networks" }

/-- `prepareResult`: status-code classification of a fully read response.
`"200"` yields `Success` with `Status Code = ... Body = ...`; anything else
yields a `Warning` with the advisory text and the remediation URL. -/
def prepareResult (body statusCode : String) : Result :=
  if statusCode = "200" then
    { Result.zero with
        Status := Status.Success
        Summary := "Status Code = " ++ statusCode ++ " Body = " ++ body }
  else
    { Result.zero with
        Status := Status.Warning
        Summary :=
          "collector.newrelic.com (EU Region) returned a non-200 STATUS CODE: " ++ statusCode
            ++ "\nPlease check network and proxy settings and try again or see -help for more options."
            ++ "\nResponse Body: " ++ body
        URL := "https://docs.newrelic.com/docs/apm/new-relic-apm/getting-started/networks" }

/-- The fixed request `Execute` builds: GET on the EU ping endpoint with a
30-second timeout. -/
def euWrapper : RequestWrapper :=
  { Method := "GET"
    URL := "https://collector.eu.newrelic.com/jserrors/ping"
    TimeoutSeconds := 30 }

/-- The straight-line tail of `Execute` after the Region Gate: invoke the
probe and classify.  Instrumented: the returned triple is the `Result`, a
flag recording that the probe was invoked, and the number of times the
response body stream was closed (the `defer resp.Body.Close()` runs once at
every return on the path that obtained a response). -/
def probeSection (httpGetter : RequestFunc) : Result × Bool × Nat :=
  match httpGetter euWrapper with
  | .error e => (prepareCollectorErrorResult (some e), true, 0)
  | .ok resp =>
      match resp.Body with
      | .error e =>
          (prepareResponseErrorResult (some e) (itoa resp.StatusCode), true, 1)
      | .ok body =>
          (prepareResult body (itoa resp.StatusCode), true, 1)

/-- `Execute`, instrumented.  The first component is the returned `Result`;
the second records whether the injected probe `httpGetter` was invoked; the
third counts closes of the response body stream.  The forced-task check
reads the ambient global `config.Flags`; the options argument `op` is
received but never read, exactly as in the source. -/
def ExecuteT (op : Options) (flags : ConfigFlags) (upstream : Upstream)
    (httpGetter : RequestFunc) : Result × Bool × Nat :=
  if !(flags.isForcedTask identifierString) then
    let result := prepareEarlyResult upstream
    if !(result == Result.zero) then (result, false, 0)
    else probeSection httpGetter
  else probeSection httpGetter

/-- `Execute`: the `Result` the task returns. -/
def Execute (op : Options) (flags : ConfigFlags) (upstream : Upstream)
    (httpGetter : RequestFunc) : Result :=
  (ExecuteT op flags upstream httpGetter).1

/-- The Response Classifier as a pure mapping from
(transport error, body-read error, status code, body) to a `Result`,
mirroring the branch order of `Execute` lines 62-78. -/
def classify (terr rerr : Option String) (statusCode body : String) : Result :=
  match terr with
  | some e => prepareCollectorErrorResult (some e)
  | none =>
      match rerr with
      | some e => prepareResponseErrorResult (some e) statusCode
      | none => prepareResult body statusCode

/-- Whether the injected getter yields a response (rather than a transport
error) on the fixed EU request. -/
def acquiredResponse (httpGetter : RequestFunc) : Bool :=
  match httpGetter euWrapper with
  | .ok _ => true
  | .error _ => false

/-- The concrete skip `Result` the Region Gate produces. -/
def skipResult : Result :=
  { Result.zero with
      Status := Status.None
      Summary := "EU Region not detected, skipping EU collector connect check" }

lemma probeSection_probed (g : RequestFunc) : (probeSection g).2.1 = true := by
  unfold probeSection
  cases h : g euWrapper with
  | error e => rfl
  | ok resp =>
      obtain ⟨sc, bodyE⟩ := resp
      cases bodyE <;> rfl

lemma probeSection_status_ne_none (g : RequestFunc) :
    (probeSection g).1.Status ≠ Status.None := by
  unfold probeSection
  cases h : g euWrapper with
  | error e => simp [prepareCollectorErrorResult]
  | ok resp =>
      obtain ⟨sc, bodyE⟩ := resp
      cases bodyE with
      | error e => simp [prepareResponseErrorResult]
      | ok body =>
          simp only [prepareResult]
          split <;> simp

/-- If the instrumentation records that the probe ran, `ExecuteT` is exactly
the probe section. -/
lemma executeT_probed (op : Options) (flags : ConfigFlags) (upstream : Upstream)
    (g : RequestFunc) (h : (ExecuteT op flags upstream g).2.1 = true) :
    ExecuteT op flags upstream g = probeSection g := by
  unfold ExecuteT at h ⊢
  cases hf : flags.isForcedTask identifierString with
  | true => simp [hf]
  | false =>
      simp only [hf, Bool.not_false, if_true] at h ⊢
      cases hz : (prepareEarlyResult upstream == Result.zero) with
      | true => simp [hz]
      | false => simp [hz] at h

/-- The Region Gate's value when the RegionDetect payload is a non-empty
string slice not containing `"eu01"`. -/
lemma prepareEarlyResult_skip (upstream : Upstream) (rs : List String)
    (hpay : (upstreamGet upstream "Base/Config/RegionDetect").Payload = Payload.regions rs)
    (hno : "eu01" ∉ rs) (hne : rs ≠ []) :
    prepareEarlyResult upstream = skipResult := by
  unfold prepareEarlyResult
  rw [hpay]
  simp only [Payload.asStringSlice]
  have hc : stringInSlice "eu01" rs = false := by
    unfold stringInSlice
    simpa using hno
  have hl : rs.length > 0 := List.length_pos.mpr hne
  simp [hc, hl, skipResult]

/-- The Region Gate's value when the RegionDetect payload is absent, of the
wrong type, or an empty list. -/
lemma prepareEarlyResult_zero (upstream : Upstream)
    (h : (upstreamGet upstream "Base/Config/RegionDetect").Payload.asStringSlice = none ∨
         (upstreamGet upstream "Base/Config/RegionDetect").Payload.asStringSlice = some []) :
    prepareEarlyResult upstream = Result.zero := by
  unfold prepareEarlyResult
  rcases h with h | h <;> rw [h]
  simp [stringInSlice]

/-- C1: for every upstream store whose RegionDetect entry carries a non-empty
string-slice payload not containing `"eu01"`, and with the forced-run
override unset, `Execute` returns a `None`-status result whose summary starts
with `"EU Region not detected"`, and the injected HTTP probe is never
invoked. -/
theorem C1_region_gate_skips_without_probe (op : Options) (flags : ConfigFlags)
    (upstream : Upstream) (g : RequestFunc) (rs : List String)
    (hpay : (upstreamGet upstream "Base/Config/RegionDetect").Payload = Payload.regions rs)
    (hne : rs ≠ []) (hno : "eu01" ∉ rs)
    (hforced : flags.isForcedTask identifierString = false) :
    (ExecuteT op flags upstream g).1.Status = Status.None ∧
    (∃ rest, (ExecuteT op flags upstream g).1.Summary = "EU Region not detected" ++ rest) ∧
    (ExecuteT op flags upstream g).2.1 = false := by
  have hpe := prepareEarlyResult_skip upstream rs hpay hno hne
  have hzero : (skipResult == Result.zero) = false := by decide
  have hE : ExecuteT op flags upstream g = (skipResult, false, 0) := by
    unfold ExecuteT
    rw [hforced]
    simp only [Bool.not_false, if_true]
    rw [hpe]
    simp [hzero]
  rw [hE]
  exact ⟨rfl, ⟨", skipping EU collector connect check", by decide⟩, rfl⟩

/-- C1 witness: region list `["us01"]`, no override, probe errors if ever
called — the task skips with status `None` and the probe is not invoked. -/
theorem C1_region_gate_skips_without_probe_witness :
    (ExecuteT ⟨fun _ => false⟩ ⟨fun _ => false⟩
        [("Base/Config/RegionDetect", { Result.zero with Payload := Payload.regions ["us01"] })]
        (fun _ => Except.error "never called")).1.Status = Status.None ∧
    (∃ rest,
      (ExecuteT ⟨fun _ => false⟩ ⟨fun _ => false⟩
        [("Base/Config/RegionDetect", { Result.zero with Payload := Payload.regions ["us01"] })]
        (fun _ => Except.error "never called")).1.Summary = "EU Region not detected" ++ rest) ∧
    (ExecuteT ⟨fun _ => false⟩ ⟨fun _ => false⟩
        [("Base/Config/RegionDetect", { Result.zero with Payload := Payload.regions ["us01"] })]
        (fun _ => Except.error "never called")).2.1 = false :=
  C1_region_gate_skips_without_probe _ _ _ _ ["us01"] (by decide) (by decide) (by decide) rfl

/-- C2: the response classification is total and follows the ordered decision
table: transport error to Failure, then body-read error to Warning, then
status string `"200"` to Success, anything else (including empty or
malformed status strings) to Warning; the status is never `None`. -/
theorem C2_classifier_total (terr rerr : Option String) (statusCode body : String) :
    (classify terr rerr statusCode body).Status ≠ Status.None ∧
    (classify terr rerr statusCode body).Status =
      (if terr.isSome then Status.Failure
       else if rerr.isSome then Status.Warning
       else if statusCode = "200" then Status.Success
       else Status.Warning) := by
  cases terr with
  | some e => simp [classify, prepareCollectorErrorResult]
  | none =>
      cases rerr with
      | some e => simp [classify, prepareResponseErrorResult]
      | none =>
          by_cases hsc : statusCode = "200" <;>
            simp [classify, prepareResult, hsc]

/-- C4: when the RegionDetect payload is absent, not a string slice, or an
empty list, the probe is invoked (fail open) and the returned result is
never the `None`-status skip result. -/
theorem C4_gate_fails_open (op : Options) (flags : ConfigFlags)
    (upstream : Upstream) (g : RequestFunc)
    (h : (upstreamGet upstream "Base/Config/RegionDetect").Payload.asStringSlice = none ∨
         (upstreamGet upstream "Base/Config/RegionDetect").Payload.asStringSlice = some []) :
    (ExecuteT op flags upstream g).2.1 = true ∧
    (ExecuteT op flags upstream g).1.Status ≠ Status.None := by
  have hz := prepareEarlyResult_zero upstream h
  have hE : ExecuteT op flags upstream g = probeSection g := by
    unfold ExecuteT
    cases hf : flags.isForcedTask identifierString with
    | true => simp
    | false => simp [hz]
  rw [hE]
  exact ⟨probeSection_probed g, probeSection_status_ne_none g⟩

/-- C4 witness: empty upstream store (RegionDetect key absent), probe returns
a transport error — the probe runs and the result is not a skip. -/
theorem C4_gate_fails_open_witness :
    (ExecuteT ⟨fun _ => false⟩ ⟨fun _ => false⟩ []
        (fun _ => Except.error "connection refused")).2.1 = true ∧
    (ExecuteT ⟨fun _ => false⟩ ⟨fun _ => false⟩ []
        (fun _ => Except.error "connection refused")).1.Status ≠ Status.None :=
  C4_gate_fails_open _ _ _ _ (Or.inl rfl)

/-- C3 counterexample: the forced-run flag set inside the execution-options
argument does not bypass the Region Gate.  With `op.isForcedTask` constantly
true, global `config.Flags` reporting no forced task, and a non-empty region
list without `"eu01"`, the probe is not invoked — `Execute` ignores `op` and
reads the ambient global flags instead. -/
theorem C3_counterexample_options_flag_ignored :
    (ExecuteT ⟨fun _ => true⟩ ⟨fun _ => false⟩
        [("Base/Config/RegionDetect", { Result.zero with Payload := Payload.regions ["us01"] })]
        (fun _ => Except.error "never called")).2.1 = false := by
  decide

/-- C3 (amended): the forced-run flag that bypasses the Region Gate is the
one read from the ambient global `config.Flags`; when it is set for
`"Base/Collector/ConnectEU"`, the probe is always invoked, for every
upstream store — including one whose region list is non-empty and lacks
`"eu01"`. -/
theorem C3_forced_run_bypasses_gate (op : Options) (flags : ConfigFlags)
    (upstream : Upstream) (g : RequestFunc)
    (hforced : flags.isForcedTask identifierString = true) :
    (ExecuteT op flags upstream g).2.1 = true := by
  have hE : ExecuteT op flags upstream g = probeSection g := by
    unfold ExecuteT
    simp [hforced]
  rw [hE]
  exact probeSection_probed g

/-- C3 witness: global flags force the task, region list is `["us01"]` — the
probe runs anyway. -/
theorem C3_forced_run_bypasses_gate_witness :
    (ExecuteT ⟨fun _ => false⟩ ⟨fun _ => true⟩
        [("Base/Config/RegionDetect", { Result.zero with Payload := Payload.regions ["us01"] })]
        (fun _ => Except.error "connection refused")).2.1 = true :=
  C3_forced_run_bypasses_gate _ _ _ _ rfl

/-- C5: whenever the probe yields a transport-level error and the probe was
invoked, `Execute` returns a `Failure` result whose summary ends with
`"Error = "` followed by the error text verbatim, and whose url is the
remediation-documentation link. -/
theorem C5_transport_error_is_failure (op : Options) (flags : ConfigFlags)
    (upstream : Upstream) (g : RequestFunc) (e : String)
    (hg : g euWrapper = Except.error e)
    (hrun : (ExecuteT op flags upstream g).2.1 = true) :
    (ExecuteT op flags upstream g).1.Status = Status.Failure ∧
    (∃ pre, (ExecuteT op flags upstream g).1.Summary = pre ++ "Error = " ++ e) ∧
    (ExecuteT op flags upstream g).1.URL =
      "https://docs.newrelic.com/docs/apm/new-relic-apm/getting-started/networks" := by
  rw [executeT_probed op flags upstream g hrun]
  unfold probeSection
  rw [hg]
  exact ⟨rfl,
    ⟨"There was an error connecting to collector.newrelic.com (EU Region)"
        ++ "\nPlease check network and proxy settings and try again or see -help for more options."
        ++ "\n", rfl⟩,
    rfl⟩

/-- C5 witness: a `"connection refused"` transport error yields a Failure
with the error text after `"Error = "` and the remediation url. -/
theorem C5_transport_error_is_failure_witness :
    (ExecuteT ⟨fun _ => false⟩ ⟨fun _ => false⟩ []
        (fun _ => Except.error "connection refused")).1.Status = Status.Failure ∧
    (∃ pre, (ExecuteT ⟨fun _ => false⟩ ⟨fun _ => false⟩ []
        (fun _ => Except.error "connection refused")).1.Summary =
          pre ++ "Error = " ++ "connection refused") ∧
    (ExecuteT ⟨fun _ => false⟩ ⟨fun _ => false⟩ []
        (fun _ => Except.error "connection refused")).1.URL =
      "https://docs.newrelic.com/docs/apm/new-relic-apm/getting-started/networks" :=
  C5_transport_error_is_failure _ _ _ _ "connection refused" rfl rfl

/-- C6: a probe response with status code 200 whose body reads without error
yields a Success result whose summary is exactly
`"Status Code = 200 Body = "` followed by the body (no minimum-content
check), with no url set. -/
theorem C6_status_200_success (op : Options) (flags : ConfigFlags)
    (upstream : Upstream) (g : RequestFunc) (b : String)
    (hg : g euWrapper = Except.ok ⟨200, Except.ok b⟩)
    (hrun : (ExecuteT op flags upstream g).2.1 = true) :
    (ExecuteT op flags upstream g).1.Status = Status.Success ∧
    (ExecuteT op flags upstream g).1.Summary = "Status Code = 200 Body = " ++ b ∧
    (ExecuteT op flags upstream g).1.URL = "" := by
  rw [executeT_probed op flags upstream g hrun]
  unfold probeSection
  rw [hg]
  show (prepareResult b (itoa 200)).Status = Status.Success ∧ _ ∧ _
  have h200 : itoa 200 = "200" := rfl
  rw [h200]
  unfold prepareResult
  rw [if_pos rfl]
  exact ⟨rfl, rfl, rfl⟩

/-- C6 witness: body `"OK"` on a 200 response gives the exact summary
`"Status Code = 200 Body = OK"`; an empty body is likewise Success. -/
theorem C6_status_200_success_witness :
    ((ExecuteT ⟨fun _ => false⟩ ⟨fun _ => false⟩ []
        (fun _ => Except.ok ⟨200, Except.ok "OK"⟩)).1.Status = Status.Success ∧
     (ExecuteT ⟨fun _ => false⟩ ⟨fun _ => false⟩ []
        (fun _ => Except.ok ⟨200, Except.ok "OK"⟩)).1.Summary = "Status Code = 200 Body = " ++ "OK" ∧
     (ExecuteT ⟨fun _ => false⟩ ⟨fun _ => false⟩ []
        (fun _ => Except.ok ⟨200, Except.ok "OK"⟩)).1.URL = "") ∧
    ((ExecuteT ⟨fun _ => false⟩ ⟨fun _ => false⟩ []
        (fun _ => Except.ok ⟨200, Except.ok ""⟩)).1.Status = Status.Success) :=
  ⟨C6_status_200_success ⟨fun _ => false⟩ ⟨fun _ => false⟩ []
      (fun _ => Except.ok ⟨200, Except.ok "OK"⟩) "OK" rfl rfl,
   (C6_status_200_success ⟨fun _ => false⟩ ⟨fun _ => false⟩ []
      (fun _ => Except.ok ⟨200, Except.ok ""⟩) "" rfl rfl).1⟩

lemma probeSection_closes (g : RequestFunc) :
    (probeSection g).2.2 = (if acquiredResponse g then 1 else 0) := by
  unfold probeSection acquiredResponse
  cases h : g euWrapper with
  | error e => rfl
  | ok resp =>
      obtain ⟨sc, bodyE⟩ := resp
      cases bodyE <;> rfl

/-- C7: the body stream is closed exactly once on every path that obtained a
response (success, body-read error, or non-200), and never otherwise: the
close count is 1 precisely when the probe ran and yielded a response. -/
theorem C7_body_closed_exactly_once (op : Options) (flags : ConfigFlags)
    (upstream : Upstream) (g : RequestFunc) :
    (ExecuteT op flags upstream g).2.2 =
      (if (ExecuteT op flags upstream g).2.1 && acquiredResponse g then 1 else 0) := by
  unfold ExecuteT
  cases hf : flags.isForcedTask identifierString with
  | true =>
      simp only [Bool.not_true, Bool.false_eq_true, if_false]
      rw [probeSection_probed g, Bool.true_and]
      exact probeSection_closes g
  | false =>
      simp only [Bool.not_false, if_true]
      cases hz : (prepareEarlyResult upstream == Result.zero) with
      | true =>
          simp only [hz, Bool.not_true, Bool.false_eq_true, if_false]
          rw [probeSection_probed g, Bool.true_and]
          exact probeSection_closes g
      | false =>
          simp only [hz, Bool.not_false, if_true]
          rfl

lemma prepareEarlyResult_cases (upstream : Upstream) :
    prepareEarlyResult upstream = Result.zero ∨
    prepareEarlyResult upstream = skipResult := by
  unfold prepareEarlyResult
  cases (upstreamGet upstream "Base/Config/RegionDetect").Payload.asStringSlice with
  | none => exact Or.inl rfl
  | some rs =>
      dsimp only
      split
      · exact Or.inr rfl
      · exact Or.inl rfl

lemma probeSection_url_iff (g : RequestFunc) :
    ((probeSection g).1.URL ≠ "") ↔
      ((probeSection g).1.Status = Status.Warning ∨
       (probeSection g).1.Status = Status.Failure) := by
  unfold probeSection
  cases h : g euWrapper with
  | error e =>
      refine iff_of_true ?_ (Or.inr rfl)
      show ("https://docs.newrelic.com/docs/apm/new-relic-apm/getting-started/networks" : String) ≠ ""
      decide
  | ok resp =>
      obtain ⟨sc, bodyE⟩ := resp
      cases bodyE with
      | error e =>
          refine iff_of_true ?_ (Or.inl rfl)
          show ("https://docs.newrelic.com/docs/apm/new-relic-apm/getting-started/networks" : String) ≠ ""
          decide
      | ok body =>
          show ((prepareResult body (itoa sc)).URL ≠ "") ↔
              ((prepareResult body (itoa sc)).Status = Status.Warning ∨
               (prepareResult body (itoa sc)).Status = Status.Failure)
          unfold prepareResult
          by_cases hsc : itoa sc = "200"
          · rw [if_pos hsc]
            refine iff_of_false (fun h2 => h2 rfl) ?_
            rintro (h2 | h2) <;> exact Status.noConfusion h2
          · rw [if_neg hsc]
            refine iff_of_true ?_ (Or.inl rfl)
            show ("https://docs.newrelic.com/docs/apm/new-relic-apm/getting-started/networks" : String) ≠ ""
            decide

/-- C8: for every result this task returns, the url field is non-empty
exactly when the status is Warning or Failure; the skip (`None`) and Success
results never carry a url. -/
theorem C8_url_iff_warning_or_failure (op : Options) (flags : ConfigFlags)
    (upstream : Upstream) (g : RequestFunc) :
    ((ExecuteT op flags upstream g).1.URL ≠ "") ↔
      ((ExecuteT op flags upstream g).1.Status = Status.Warning ∨
       (ExecuteT op flags upstream g).1.Status = Status.Failure) := by
  unfold ExecuteT
  cases hf : flags.isForcedTask identifierString with
  | true =>
      simpa using probeSection_url_iff g
  | false =>
      simp only [Bool.not_false, if_true]
      rcases prepareEarlyResult_cases upstream with hz | hs
      · simpa [hz] using probeSection_url_iff g
      · rw [hs]
        have hne : (skipResult == Result.zero) = false := by decide
        simp only [hne, Bool.not_false, if_true]
        exact iff_of_false (by decide) (by decide)

/-- C9: the classification helpers are deterministic — two invocations on
equal inputs produce identical results (same status, summary, and url). -/
theorem C9_classification_deterministic
    (ce1 ce2 re1 re2 : Option String) (rs1 rs2 b1 b2 s1 s2 : String)
    (h1 : ce1 = ce2) (h2 : re1 = re2) (h3 : rs1 = rs2) (h4 : b1 = b2) (h5 : s1 = s2) :
    prepareCollectorErrorResult ce1 = prepareCollectorErrorResult ce2 ∧
    prepareResponseErrorResult re1 rs1 = prepareResponseErrorResult re2 rs2 ∧
    prepareResult b1 s1 = prepareResult b2 s2 := by
  subst h1
  subst h2
  subst h3
  subst h4
  subst h5
  exact ⟨rfl, rfl, rfl⟩

/-- C9 witness: concrete repeated invocations agree. -/
theorem C9_classification_deterministic_witness :
    prepareCollectorErrorResult (some "timeout") = prepareCollectorErrorResult (some "timeout") ∧
    prepareResponseErrorResult (some "eof") "500" = prepareResponseErrorResult (some "eof") "500" ∧
    prepareResult "body" "503" = prepareResult "body" "503" :=
  C9_classification_deterministic (some "timeout") (some "timeout") (some "eof") (some "eof")
    "500" "500" "body" "body" "503" "503" rfl rfl rfl rfl rfl

/-- C10: on a nil error both error helpers return the Go zero-value result —
status `None`, empty summary, empty url — so a nil error never yields a
Failure or Warning from them. -/
theorem C10_nil_error_returns_zero (statusCode : String) :
    prepareCollectorErrorResult none = Result.zero ∧
    prepareResponseErrorResult none statusCode = Result.zero ∧
    Result.zero.Status = Status.None ∧
    Result.zero.Summary = "" ∧
    Result.zero.URL = "" :=
  ⟨rfl, rfl, rfl, rfl, rfl⟩

end ConnectEU
